import Mathlib

/-!
Verification of the snippet-box request pipeline and persistence model.

The Go source is shallowly embedded: the relational store is a list of rows
plus a store-side clock, SQL queries become pure functions on that state,
HTTP handlers and middleware become functions producing explicit event
traces, and Go errors become inductive error types.
-/

set_option maxHeartbeats 1000000

namespace SnippetBox

/-- One snippets-table row: `type Snippet struct` in internal/models/snippets.go.
Timestamps are store-side seconds; ids are Go ints. -/
structure Snippet where
  id : Int
  title : String
  content : String
  created : Nat
  expires : Nat
  deriving Repr, DecidableEq

/-- Store-engine error: the driver either signals "no rows" (sql.ErrNoRows)
or some other failure. -/
inductive DBError where
  | noRows : DBError
  | other : String → DBError
  deriving Repr, DecidableEq

/-- Error surface of the persistence model as seen by handlers: either the
model sentinel ErrNoRecord (models/errors.go) or a raw store error passed
through unchanged. -/
inductive ModelError where
  | errNoRecord : ModelError
  | dbErr : DBError → ModelError
  deriving Repr, DecidableEq

/-- The relational store backing SnippetModel: its rows, the next id the
engine will assign, and the engine clock (CURRENT_TIMESTAMP), in seconds. -/
structure Store where
  rows : List Snippet
  nextId : Int
  now : Nat
  deriving Repr

/-- Primary-key uniqueness of the snippets table. -/
def Store.idsNodup (db : Store) : Prop := (db.rows.map Snippet.id).Nodup

/-- The id generator is ahead of every stored row. -/
def Store.freshNext (db : Store) : Prop := ∀ s ∈ db.rows, s.id < db.nextId

instance (db : Store) : Decidable db.idsNodup := by
  unfold Store.idsNodup; infer_instance

instance (db : Store) : Decidable db.freshNext := by
  unfold Store.freshNext; infer_instance

/-- A row is live when `expires > CURRENT_TIMESTAMP` evaluated store-side. -/
def live (db : Store) (s : Snippet) : Bool := db.now < s.expires

/-- Seconds in one day, the unit of the one-day INTERVAL. -/
def daySeconds : Nat := 86400

/-- `Insert(title, content, expires)`: the engine computes
`created = CURRENT_TIMESTAMP` and
`expires` as CURRENT_TIMESTAMP plus the one-day INTERVAL times the third parameter, appends the row and
returns the generated id (`RETURNING id`). -/
def Insert (db : Store) (title content : String) (expiresDays : Nat) :
    Store × Int :=
  let s : Snippet :=
    { id := db.nextId, title := title, content := content,
      created := db.now, expires := db.now + expiresDays * daySeconds }
  ({ rows := db.rows ++ [s], nextId := db.nextId + 1, now := db.now }, db.nextId)

/-- `SELECT ... WHERE expires > CURRENT_TIMESTAMP AND id = $1` through
`QueryRow`/`Scan`: the first matching live row, or the no-rows
signal of the driver. -/
def dbGetScan (db : Store) (id : Int) : Except DBError Snippet :=
  match (db.rows.filter (fun s => live db s && s.id == id)).head? with
  | some s => Except.ok s
  | none => Except.error DBError.noRows

/-- The error-translation step of `SnippetModel.Get`: `errors.Is(err,
sql.ErrNoRows)` becomes ErrNoRecord, any other scan error is returned
unchanged. -/
def getTranslate (scanRes : Except DBError Snippet) :
    Except ModelError Snippet :=
  match scanRes with
  | Except.ok s => Except.ok s
  | Except.error DBError.noRows => Except.error ModelError.errNoRecord
  | Except.error (DBError.other m) =>
      Except.error (ModelError.dbErr (DBError.other m))

/-- `SnippetModel.Get(id)`: run the single-row query and translate its
error. -/
def Get (db : Store) (id : Int) : Except ModelError Snippet :=
  getTranslate (dbGetScan db id)

/-- Descending-id comparison used to embed `ORDER BY id DESC`. -/
def idGE (a b : Snippet) : Prop := b.id ≤ a.id

instance : DecidableRel idGE := fun a b => by
  unfold idGE; infer_instance

instance : IsTotal Snippet idGE := ⟨fun a b => le_total b.id a.id⟩

instance : IsTrans Snippet idGE :=
  ⟨fun _ _ _ h h2 => le_trans h2 h⟩

/-- The result set of
`SELECT ... WHERE expires > CURRENT_TIMESTAMP ORDER BY id DESC LIMIT 10`. -/
def sqlLatest (db : Store) : List Snippet :=
  (List.insertionSort idGE (db.rows.filter (fun s => live db s))).take 10

/-- Whether the `sql.Rows` result set was opened and whether it was closed
before `Latest()` returned. -/
structure RowsState where
  opened : Bool
  closed : Bool
  deriving Repr, DecidableEq

/-- The `for rows.Next()` loop of `Latest()`: scan each row in order,
appending to the slice, returning early on the first scan error. -/
def scanLoop (scans : List (Except DBError Snippet)) (acc : List Snippet) :
    Except DBError (List Snippet) :=
  match scans with
  | [] => Except.ok acc.reverse
  | Except.ok s :: rest => scanLoop rest (s :: acc)
  | Except.error e :: _ => Except.error e

/-- The control flow of `SnippetModel.Latest()` over oracle inputs: `qres`
is the outcome of `DB.Query` (on success, the per-row `rows.Scan` outcomes)
and `iterErr` is the value of `rows.Err()`. On a query error the result set
never existed; once `Query` succeeds, `defer rows.Close()` is registered,
so every later exit path — scan error, iteration error, success — runs the
close before returning. -/
def latestExec (qres : Except DBError (List (Except DBError Snippet)))
    (iterErr : Option DBError) :
    Except DBError (List Snippet) × RowsState :=
  match qres with
  | Except.error e => (Except.error e, { opened := false, closed := false })
  | Except.ok scans =>
    let body : Except DBError (List Snippet) :=
      match scanLoop scans [] with
      | Except.error e => Except.error e
      | Except.ok snippets =>
        match iterErr with
        | some e => Except.error e
        | none => Except.ok snippets
    (body, { opened := true, closed := true })

/-- `SnippetModel.Latest()` against a store that answers the query with its
SQL semantics and no transport failure. -/
def Latest (db : Store) : Except DBError (List Snippet) × RowsState :=
  latestExec (Except.ok ((sqlLatest db).map Except.ok)) none

/-- An inbound HTTP request as the helpers and middleware observe it:
remote address, protocol, method, request URI, and the runtime stack
snapshot `debug.Stack()` would capture while handling it. -/
structure Request where
  remoteAddr : String
  proto : String
  method : String
  uri : String
  stack : String
  deriving Repr, DecidableEq

/-- One observable effect on the response writer or the structured logger,
in the order it happens. -/
inductive Event where
  | setHeader : String → String → Event
  | logInfo : String → String → String → String → Event
  | logError : String → String → String → String → Event
  | writeStatus : Nat → Event
  | writeBody : String → Event
  | dbGetCall : Int → Event
  deriving Repr, DecidableEq

/-- Whether an event reaches the client (response-writer effects, as
opposed to log lines or model calls). -/
def Event.isWrite : Event → Bool
  | Event.setHeader _ _ => true
  | Event.writeStatus _ => true
  | Event.writeBody _ => true
  | _ => false

/-- The part of a trace the client can observe. -/
def writesOf (evts : List Event) : List Event :=
  evts.filter Event.isWrite

/-- `http.StatusText` for the codes this core sends. -/
def statusText (code : Nat) : String :=
  if code = 500 then "Internal Server Error"
  else if code = 404 then "Not Found"
  else if code = 405 then "Method Not Allowed"
  else ""

/-- `http.Error(w, msg, code)`: sets the plain-text content-type headers,
writes the status code, then the message followed by a newline. -/
def httpError (msg : String) (code : Nat) : List Event :=
  [Event.setHeader "Content-Type" "text/plain; charset=utf-8",
   Event.setHeader "X-Content-Type-Options" "nosniff",
   Event.writeStatus code,
   Event.writeBody (msg ++ "\n")]

/-- `http.NotFound(w, r)` = `http.Error(w, "404 page not found", 404)`. -/
def httpNotFound : List Event :=
  httpError "404 page not found" 404

/-- `app.serverError(w, r, err)`: log at Error level with the error text,
the request method and URI and the stack trace, then send the generic 500
via `http.Error(w, http.StatusText(500), 500)`. -/
def serverError (r : Request) (errMsg : String) : List Event :=
  Event.logError errMsg r.method r.uri r.stack ::
    httpError (statusText 500) 500

/-- One piece of a compiled template: a literal, or a pipeline that looks a
field up in the payload and fails when the payload lacks it (the
nil-dereference failure mode of `html/template`). -/
inductive Chunk where
  | lit : String → Chunk
  | field : String → Chunk
  deriving Repr, DecidableEq

/-- A compiled template set: executing "base" emits these chunks in
order. -/
abbrev Template := List Chunk

/-- The render payload, looked up by field name; `none` is the absent
field a template dereference trips over. -/
abbrev TData := String → Option String

/-- `ts.ExecuteTemplate(buf, "base", data)`: emit chunk by chunk into the
buffer, stopping at the first failing field. Returns the buffer contents so
far and whether execution completed. -/
def execChunks (data : TData) : List Chunk → String → String × Bool
  | [], buf => (buf, true)
  | Chunk.lit s :: rest, buf => execChunks data rest (buf ++ s)
  | Chunk.field n :: rest, buf =>
    match data n with
    | some v => execChunks data rest (buf ++ v)
    | none => (buf, false)

/-- `app.render(w, r, status, page, data)`: look the page up in the
template cache (missing page → serverError), execute the template set into
a fresh private buffer, and only when execution succeeded write the status
code and flush the buffer; on an execution error call serverError
instead. -/
def render (cache : String → Option Template) (r : Request) (status : Nat)
    (page : String) (data : TData) : List Event :=
  match cache page with
  | none => serverError r ("the template " ++ page ++ " does not exist")
  | some ts =>
    let res := execChunks data ts ""
    if res.2 then
      [Event.writeStatus status, Event.writeBody res.1]
    else
      serverError r "template execution error"

/-- How one execution unit ends: normal return, or a panic carrying the
string form of the panic value. -/
inductive Outcome where
  | normal : Outcome
  | panicked : String → Outcome
  deriving Repr, DecidableEq

/-- The result of handling one request: the events emitted before the unit
ended, its outcome, and the outcomes of background goroutines it spawned
(which run in independent execution units). -/
structure HResult where
  events : List Event
  outcome : Outcome
  bg : List Outcome
  deriving Repr, DecidableEq

/-- An `http.Handler`. -/
abbrev Handler := Request → HResult

/-- `commonHeaders` middleware: set the Server header, then delegate. -/
def commonHeaders (next : Handler) : Handler := fun r =>
  let res := next r
  { res with events := Event.setHeader "Server" "Go" :: res.events }

/-- `app.logRequest` middleware: log the remote address, protocol, method
and URI at Info level, then delegate. -/
def logRequest (next : Handler) : Handler := fun r =>
  let res := next r
  { res with
      events := Event.logInfo r.remoteAddr r.proto r.method r.uri ::
        res.events }

/-- `app.recoverPanic` middleware: run the inner handler under a deferred
`recover()`. A panic in the same execution unit is intercepted: the
Connection close header is set and serverError produces the 500. Outcomes
of background goroutines are not touched — `recover()` only sees the
current goroutine. -/
def recoverPanic (next : Handler) : Handler := fun r =>
  let res := next r
  match res.outcome with
  | Outcome.normal => res
  | Outcome.panicked msg =>
    { events := res.events ++
        (Event.setHeader "Connection" "close" :: serverError r msg),
      outcome := Outcome.normal,
      bg := res.bg }

/-- `app.routes()`: the router wrapped as
`recoverPanic(logRequest(commonHeaders(mux)))`. -/
def routes (mux : Handler) : Handler :=
  recoverPanic (logRequest (commonHeaders mux))

/-- Accumulate the value of a run of decimal digit characters. -/
def digitsVal? (cs : List Char) (acc : Nat) : Option Nat :=
  match cs with
  | [] => some acc
  | c :: rest =>
    if c.isDigit then digitsVal? rest (acc * 10 + (c.toNat - 48))
    else none

/-- `strconv.Atoi`: an optional sign followed by at least one decimal
digit; values outside the 64-bit int range fail with ErrRange (the Atoi
caller treats that error the same as a syntax error). -/
def goAtoi (s : String) : Option Int :=
  let core : List Char → Option Int → Option Int := fun cs sign =>
    match cs, sign with
    | [], _ => none
    | cs, some (-1) =>
      match digitsVal? cs 0 with
      | some n => if n ≤ 2 ^ 63 then some (-(n : Int)) else none
      | none => none
    | cs, _ =>
      match digitsVal? cs 0 with
      | some n => if n ≤ 2 ^ 63 - 1 then some (n : Int) else none
      | none => none
  match s.data with
  | '+' :: rest => core rest (some 1)
  | '-' :: rest => core rest (some (-1))
  | cs => core cs none

/-- The percent-plus-v rendering of a snippet, as written by `fmt.Fprintf` in the
early snippetView. Its exact shape is irrelevant to the claims. -/
def formatSnippet (s : Snippet) : String :=
  "\x7bID:" ++ toString s.id ++ " Title:" ++ s.title ++
    " Content:" ++ s.content ++ "\x7d"

/-- `app.snippetView`: parse the id path value with `strconv.Atoi`; on a
parse error or an id below 1, reply `http.NotFound` and return before
touching the model. Otherwise call `Get`, mapping ErrNoRecord to
`http.NotFound`, any other error to serverError, and success to the
response body. -/
def snippetView (db : Store) (r : Request) (idStr : String) : List Event :=
  match goAtoi idStr with
  | none => httpNotFound
  | some id =>
    if id < 1 then httpNotFound
    else
      Event.dbGetCall id ::
        match Get db id with
        | Except.error ModelError.errNoRecord => httpNotFound
        | Except.error (ModelError.dbErr e) =>
            serverError r ("store error: " ++ toString (repr e))
        | Except.ok s => [Event.writeBody (formatSnippet s)]

/-! Concrete fixtures used by the witness theorems. -/

/-- An empty store. -/
def db0 : Store := { rows := [], nextId := 1, now := 1000 }

/-- A store with two rows, one live and one expired. -/
def dbW : Store :=
  { rows := [{ id := 1, title := "a", content := "x", created := 0, expires := 2000 },
             { id := 2, title := "b", content := "y", created := 0, expires := 500 }],
    nextId := 3, now := 1000 }

/-- A concrete request. -/
def reqW : Request :=
  { remoteAddr := "127.0.0.1:50000", proto := "HTTP/1.1", method := "GET",
    uri := "/snippet/view/1", stack := "goroutine 1 [running]" }

/-- A template whose second chunk dereferences a field. -/
def tsW : Template := [Chunk.lit "<h1>", Chunk.field "missing"]

/-- A one-page cache holding tsW under the name home. -/
def cacheW : String → Option Template :=
  fun p => if p = "home" then some tsW else none

/-- An always-empty cache. -/
def cacheNoneW : String → Option Template := fun _ => none

/-- A payload with no fields. -/
def dataW : TData := fun _ => none

/-- A handler that panics at once, after spawning a background goroutine
that also panics. -/
def panicHandlerW : Handler := fun _ =>
  { events := [], outcome := Outcome.panicked "boom",
    bg := [Outcome.panicked "bg-boom"] }

/-- Claim C2: when no row with the given id is live at the store clock,
Get(id) fails with the model sentinel ErrNoRecord, and the translation
step never lets the raw no-rows driver signal through to a caller. -/
theorem get_no_live_row_is_errNoRecord (db : Store) (id : Int)
    (h : ∀ s ∈ db.rows, s.id = id → s.expires ≤ db.now) :
    Get db id = Except.error ModelError.errNoRecord ∧
    ∀ scanRes, getTranslate scanRes ≠
      Except.error (ModelError.dbErr DBError.noRows) := by
  constructor
  · have hf : db.rows.filter (fun s => live db s && s.id == id) = [] := by
      rw [List.filter_eq_nil_iff]
      intro s hs hp
      simp only [Bool.and_eq_true, beq_iff_eq, live, decide_eq_true_eq] at hp
      exact absurd hp.1 (not_lt.mpr (h s hs hp.2))
    simp [Get, dbGetScan, hf, getTranslate]
  · intro scanRes
    match scanRes with
    | Except.ok s => simp [getTranslate]
    | Except.error DBError.noRows => simp [getTranslate]
    | Except.error (DBError.other m) => simp [getTranslate]

/-- Witness for C2 at the empty store and id 1. -/
theorem get_no_live_row_is_errNoRecord_witness :
    (∀ s ∈ db0.rows, s.id = 1 → s.expires ≤ db0.now) ∧
    Get db0 1 = Except.error ModelError.errNoRecord :=
  ⟨by simp [db0], (get_no_live_row_is_errNoRecord db0 1 (by simp [db0])).1⟩

/-- Claim C9: the result set of Latest is closed exactly when it was
opened — on the query-error path it never existed, and on the scan-error,
iteration-error and success paths the deferred close runs before the
return; with the deterministic store the call ends opened and closed. -/
theorem latest_closes_result_set
    (qres : Except DBError (List (Except DBError Snippet)))
    (iterErr : Option DBError) (db : Store) :
    (latestExec qres iterErr).2.opened = (latestExec qres iterErr).2.closed ∧
    (Latest db).2 = { opened := true, closed := true } := by
  constructor
  · cases qres with
    | error e => rfl
    | ok scans => rfl
  · cases hq : Latest db with
    | mk res st =>
      simp only [Latest, latestExec] at hq
      exact (congrArg Prod.snd hq).symm.trans rfl

/-- Claim C4: the application handler is composed as recovery outermost,
then request logging, then common headers, then the router; on every
request the trace shows the info log line first, then the Server header,
then whatever the router produced, with the recovery tail appended only
when the inner handling panicked. -/
theorem routes_middleware_order (mux : Handler) (r : Request) :
    routes mux = recoverPanic (logRequest (commonHeaders mux)) ∧
    (routes mux r).events =
      Event.logInfo r.remoteAddr r.proto r.method r.uri ::
        Event.setHeader "Server" "Go" ::
          ((mux r).events ++
            (match (mux r).outcome with
             | Outcome.normal => []
             | Outcome.panicked msg =>
                 Event.setHeader "Connection" "close" :: serverError r msg)) := by
  refine ⟨rfl, ?_⟩
  cases hmo : (mux r).outcome with
  | normal =>
    simp [routes, recoverPanic, logRequest, commonHeaders, hmo]
  | panicked msg =>
    simp [routes, recoverPanic, logRequest, commonHeaders, hmo]

/-- Claim C5: a panic in the same execution unit is intercepted by
recoverPanic, which sets the Connection close header and responds through
serverError with the 500; outcomes of background goroutines pass through
untouched. -/
theorem recover_panic_intercepts (next : Handler) (r : Request) (msg : String)
    (h : (next r).outcome = Outcome.panicked msg) :
    (recoverPanic next r).outcome = Outcome.normal ∧
    (recoverPanic next r).events =
      (next r).events ++
        (Event.setHeader "Connection" "close" :: serverError r msg) ∧
    Event.writeStatus 500 ∈ (recoverPanic next r).events ∧
    (recoverPanic next r).bg = (next r).bg := by
  have he : recoverPanic next r =
      { events := (next r).events ++
          (Event.setHeader "Connection" "close" :: serverError r msg),
        outcome := Outcome.normal, bg := (next r).bg } := by
    simp [recoverPanic, h]
  refine ⟨by rw [he], by rw [he], ?_, by rw [he]⟩
  rw [he]
  simp [serverError, httpError]

/-- Witness for C5 at a concrete panicking handler. -/
theorem recover_panic_intercepts_witness :
    (panicHandlerW reqW).outcome = Outcome.panicked "boom" ∧
    (recoverPanic panicHandlerW reqW).outcome = Outcome.normal ∧
    (recoverPanic panicHandlerW reqW).bg = [Outcome.panicked "bg-boom"] :=
  ⟨rfl, (recover_panic_intercepts panicHandlerW reqW "boom" rfl).1,
    ((recover_panic_intercepts panicHandlerW reqW "boom" rfl).2.2.2).trans rfl⟩

/-- Claim C7: serverError logs at error severity with the error text, the
request method, the URI and the stack trace, then sends exactly the fixed
500 response; the client-visible part of the trace does not depend on the
error value. -/
theorem server_error_uniform_body (r : Request) (e1 e2 : String) :
    serverError r e1 =
      [Event.logError e1 r.method r.uri r.stack,
       Event.setHeader "Content-Type" "text/plain; charset=utf-8",
       Event.setHeader "X-Content-Type-Options" "nosniff",
       Event.writeStatus 500,
       Event.writeBody "Internal Server Error\n"] ∧
    writesOf (serverError r e1) = writesOf (serverError r e2) := by
  constructor
  · rfl
  · rfl

/-- Claim C1: for a page present in the cache, render stages the whole
template execution in a private buffer: on success the trace is exactly
the status code followed by the complete buffer, and on a mid-execution
failure the client sees exactly the fixed 500 response — the status
precedes the only body write and no partial HTML byte appears. -/
theorem render_staged_atomicity (cache : String → Option Template)
    (r : Request) (status : Nat) (page : String) (data : TData)
    (ts : Template) (h : cache page = some ts) :
    ((execChunks data ts "").2 = true →
      render cache r status page data =
        [Event.writeStatus status,
         Event.writeBody (execChunks data ts "").1]) ∧
    ((execChunks data ts "").2 = false →
      render cache r status page data =
        serverError r "template execution error" ∧
      writesOf (render cache r status page data) =
        [Event.setHeader "Content-Type" "text/plain; charset=utf-8",
         Event.setHeader "X-Content-Type-Options" "nosniff",
         Event.writeStatus 500,
         Event.writeBody "Internal Server Error\n"]) := by
  constructor
  · intro hb
    simp [render, h, hb]
  · intro hb
    have he : render cache r status page data =
        serverError r "template execution error" := by
      simp [render, h, hb]
    exact ⟨he, by rw [he]; rfl⟩

/-- Witness for C1: a cached page whose template dereferences an absent
field fails partway and yields the fixed 500 response. -/
theorem render_staged_atomicity_witness :
    cacheW "home" = some tsW ∧ (execChunks dataW tsW "").2 = false ∧
    render cacheW reqW 200 "home" dataW =
      serverError reqW "template execution error" :=
  ⟨rfl, rfl,
    ((render_staged_atomicity cacheW reqW 200 "home" dataW tsW rfl).2 rfl).1⟩

/-- Claim C6: a page name absent from the template cache makes render go
through the server-error path: a 500 with the fixed body, never a 404, and
nothing is written before that 500 status. -/
theorem render_missing_page_server_error (cache : String → Option Template)
    (r : Request) (status : Nat) (page : String) (data : TData)
    (h : cache page = none) :
    render cache r status page data =
      serverError r ("the template " ++ page ++ " does not exist") ∧
    writesOf (render cache r status page data) =
      [Event.setHeader "Content-Type" "text/plain; charset=utf-8",
       Event.setHeader "X-Content-Type-Options" "nosniff",
       Event.writeStatus 500,
       Event.writeBody "Internal Server Error\n"] := by
  have he : render cache r status page data =
      serverError r ("the template " ++ page ++ " does not exist") := by
    simp [render, h]
  exact ⟨he, by rw [he]; rfl⟩

/-- Witness for C6 at an empty cache. -/
theorem render_missing_page_server_error_witness :
    cacheNoneW "home" = none ∧
    render cacheNoneW reqW 200 "home" dataW =
      serverError reqW ("the template " ++ "home" ++ " does not exist") :=
  ⟨rfl,
    (render_missing_page_server_error cacheNoneW reqW 200 "home" dataW rfl).1⟩

/-- Claim C10: an id path value that does not parse as a decimal integer,
or parses below 1, makes snippetView reply the standard 404 and return
without calling Get on the model. -/
theorem snippet_view_invalid_id_not_found (db : Store) (r : Request)
    (idStr : String)
    (h : goAtoi idStr = none ∨ ∃ n, goAtoi idStr = some n ∧ n < 1) :
    snippetView db r idStr = httpNotFound ∧
    snippetView db r idStr =
      [Event.setHeader "Content-Type" "text/plain; charset=utf-8",
       Event.setHeader "X-Content-Type-Options" "nosniff",
       Event.writeStatus 404,
       Event.writeBody "404 page not found\n"] ∧
    ∀ id, Event.dbGetCall id ∉ snippetView db r idStr := by
  have he : snippetView db r idStr = httpNotFound := by
    rcases h with h | ⟨n, hn, hlt⟩
    · simp [snippetView, h]
    · simp [snippetView, hn, hlt]
  refine ⟨he, by rw [he]; rfl, ?_⟩
  intro id
  rw [he]
  simp [httpNotFound, httpError]

/-- Witness for C10 at the id path value 0. -/
theorem snippet_view_invalid_id_not_found_witness :
    (goAtoi "0" = some 0 ∧ (0 : Int) < 1) ∧
    snippetView db0 reqW "0" = httpNotFound :=
  ⟨⟨by decide, by decide⟩,
    (snippet_view_invalid_id_not_found db0 reqW "0"
      (Or.inr ⟨0, by decide, by decide⟩)).1⟩

/-- Scanning a result set in which every row scan succeeds accumulates
exactly those rows in order. -/
theorem scanLoop_all_ok (l acc : List Snippet) :
    scanLoop (l.map Except.ok) acc = Except.ok (acc.reverse ++ l) := by
  induction l generalizing acc with
  | nil => simp [scanLoop]
  | cons s rest ih => simp [scanLoop, ih]

/-- Claim C3: Latest returns at most 10 snippets, strictly descending by
id (given primary-key uniqueness), all live at the store clock, and when
no live row exists it returns the empty collection with a nil error. -/
theorem latest_capped_sorted_live (db : Store) (h : db.idsNodup) :
    (sqlLatest db).length ≤ 10 ∧
    (sqlLatest db).Pairwise (fun a b => b.id < a.id) ∧
    (∀ s ∈ sqlLatest db, db.now < s.expires) ∧
    Latest db = (Except.ok (sqlLatest db),
      { opened := true, closed := true }) ∧
    ((∀ s ∈ db.rows, s.expires ≤ db.now) →
      Latest db = (Except.ok [], { opened := true, closed := true })) := by
  have hlen : (sqlLatest db).length ≤ 10 := List.length_take_le _ _
  have hsub10 : List.Sublist (sqlLatest db)
      (List.insertionSort idGE (db.rows.filter (fun s => live db s))) :=
    List.take_sublist 10 _
  have hsorted : (sqlLatest db).Pairwise idGE :=
    (List.sorted_insertionSort idGE _).sublist hsub10
  have hperm :
      (List.insertionSort idGE (db.rows.filter (fun s => live db s))).Perm
        (db.rows.filter (fun s => live db s)) :=
    List.perm_insertionSort idGE _
  have hnodupF : ((db.rows.filter (fun s => live db s)).map Snippet.id).Nodup :=
    h.sublist ((List.filter_sublist db.rows).map Snippet.id)
  have hnodupS :
      ((List.insertionSort idGE
        (db.rows.filter (fun s => live db s))).map Snippet.id).Nodup :=
    (hperm.symm.map Snippet.id).nodup hnodupF
  have hnodup10 : ((sqlLatest db).map Snippet.id).Nodup :=
    hnodupS.sublist (hsub10.map Snippet.id)
  have hne : (sqlLatest db).Pairwise (fun a b => a.id ≠ b.id) :=
    List.pairwise_map.mp hnodup10
  have hstrict : (sqlLatest db).Pairwise (fun a b => b.id < a.id) :=
    (hsorted.and hne).imp
      (fun hab => lt_of_le_of_ne hab.1 hab.2.symm)
  have hmemlive : ∀ s ∈ sqlLatest db, db.now < s.expires := by
    intro s hs
    have h1 : s ∈ List.insertionSort idGE
        (db.rows.filter (fun x => live db x)) := hsub10.subset hs
    have h2 : s ∈ db.rows.filter (fun x => live db x) := hperm.subset h1
    have h3 := List.of_mem_filter h2
    simpa [live] using h3
  have hlat : Latest db = (Except.ok (sqlLatest db),
      { opened := true, closed := true }) := by
    simp [Latest, latestExec, scanLoop_all_ok]
  refine ⟨hlen, hstrict, hmemlive, hlat, ?_⟩
  intro hdead
  have hf : db.rows.filter (fun s => live db s) = [] := by
    rw [List.filter_eq_nil_iff]
    intro s hs
    simp only [live, decide_eq_true_eq, not_lt]
    exact hdead s hs
  have hsql : sqlLatest db = [] := by
    unfold sqlLatest
    rw [hf]
    rfl
  rw [hlat, hsql]

/-- Witness for C3 at a store with one live and one expired row. -/
theorem latest_capped_sorted_live_witness :
    dbW.idsNodup ∧ (sqlLatest dbW).length ≤ 10 ∧
    (∀ s ∈ sqlLatest dbW, dbW.now < s.expires) :=
  ⟨by decide, (latest_capped_sorted_live dbW (by decide)).1,
    (latest_capped_sorted_live dbW (by decide)).2.2.1⟩

/-- Claim C8: Insert with a 7-day expiry followed by Get on the returned
id succeeds and yields a snippet with the same title and content whose
expires timestamp is exactly its created timestamp plus 7 days, both
computed from the store clock. -/
theorem insert_get_roundtrip (db : Store) (t c : String) (h : db.freshNext) :
    ∃ s, Get (Insert db t c 7).1 (Insert db t c 7).2 = Except.ok s ∧
      s.title = t ∧ s.content = c ∧ s.created = db.now ∧
      s.expires = s.created + 7 * daySeconds := by
  refine ⟨{ id := db.nextId, title := t, content := c, created := db.now,
            expires := db.now + 7 * daySeconds },
          ?_, rfl, rfl, rfl, rfl⟩
  have hold : db.rows.filter
      (fun s => live (Insert db t c 7).1 s && s.id == db.nextId) = [] := by
    rw [List.filter_eq_nil_iff]
    intro s hs hp
    simp only [Bool.and_eq_true, beq_iff_eq] at hp
    exact absurd hp.2 (ne_of_lt (h s hs))
  have hlivenew : db.now < db.now + 7 * daySeconds := by
    simp only [daySeconds]
    omega
  show getTranslate (dbGetScan (Insert db t c 7).1 (Insert db t c 7).2) = _
  unfold dbGetScan
  rw [show ((Insert db t c 7).1).rows =
        db.rows ++ [{ id := db.nextId, title := t, content := c,
                      created := db.now,
                      expires := db.now + 7 * daySeconds }] from rfl,
      show (Insert db t c 7).2 = db.nextId from rfl,
      List.filter_append, hold]
  simp [live, getTranslate, show ((Insert db t c 7).1).now = db.now from rfl,
        hlivenew]

/-- Witness for C8 at the empty store. -/
theorem insert_get_roundtrip_witness :
    db0.freshNext ∧
    ∃ s, Get (Insert db0 "t" "c" 7).1 (Insert db0 "t" "c" 7).2 =
        Except.ok s ∧
      s.title = "t" ∧ s.content = "c" ∧ s.created = db0.now ∧
      s.expires = s.created + 7 * daySeconds :=
  ⟨by decide, insert_get_roundtrip db0 "t" "c" (by decide)⟩

end SnippetBox
